import Mathlib

/-!
Shallow embedding of the ephemeral SRE-agent orchestrator
(src/sre-agent/agent_registry.py, src/sre-agent/agents/base_agent.py,
src/sre-agent/llm_brain.py, src/sre-agent/app.py).

Modelling conventions:
* Python `datetime.utcnow()` timestamps are modelled as a `Nat` clock held in
  the world state (units: milliseconds); `duration` fields therefore hold the
  difference of two clock readings.  The field name `duration_seconds` is kept
  from the source even though the model unit is abstract.
* `uuid.uuid4().hex` draws are modelled as an external entropy stream
  `uuidSrc : Nat → String` consumed via a counter, exactly one draw per
  `uuid4()` call in the source.
* Python dicts keyed by strings are association lists with dict semantics
  (lookup finds the unique binding; insertion replaces; `pop` removes the key).
* Fallible external collaborators (the LLM classifier, a variant's `execute`)
  are parameters describing their outcome, including the raising case.
-/

namespace SreAgent

/-- A primitive Python value appearing in the result dicts handled by the
orchestrator: a string or a number. -/
inductive PyLit where
  | s (v : String)
  | n (v : Nat)
deriving DecidableEq

/-- A flat Python dict with string keys, as returned by a variant `execute`. -/
abbrev PyDict := List (String × PyLit)

/-- A value of the envelope dict built by `BaseAgent.run`: a literal or a
nested raw-result dict (the `data` field). -/
inductive EnvVal where
  | lit (v : PyLit)
  | dict (d : PyDict)
deriving DecidableEq

/-- The dict returned by `BaseAgent.run`. -/
abbrev Envelope := List (String × EnvVal)

/-- Python `d.get(k, default)` on a flat dict. -/
def pyGet (d : PyDict) (k : String) (dflt : PyLit) : PyLit :=
  match d with
  | [] => dflt
  | (k0, v) :: rest => if k0 = k then v else pyGet rest k dflt

/-- Python `d.get(k)` (returning `None` when absent) on an envelope. -/
def envLookup (e : Envelope) (k : String) : Option EnvVal :=
  match e with
  | [] => none
  | (k0, v) :: rest => if k0 = k then some v else envLookup rest k

/-- Rendering of a `PyLit`, for the model of Python `str(...)`. -/
def pyLitStr : PyLit → String
  | .s v => "\x27" ++ v ++ "\x27"
  | .n v => toString v

/-- Model of Python `str(result)` on a flat result dict (used only for the
diagnostic byte counts `len(str(result))`). -/
def pyStr (d : PyDict) : String :=
  "\x7b" ++ String.intercalate ", "
    (d.map (fun p => "\x27" ++ p.1 ++ "\x27: " ++ pyLitStr p.2)) ++ "\x7d"

/-- Re-representation of a flat dict as an envelope (Python passes the dict
itself; the model re-tags the unchanged bindings). -/
def pyDictToEnv (d : PyDict) : Envelope :=
  d.map (fun p => (p.1, EnvVal.lit p.2))

/-- Python `result.get("data", result)` in `app.py` (the formatter input). -/
def envGetData (e : Envelope) : Envelope :=
  match envLookup e "data" with
  | some (.dict d) => pyDictToEnv d
  | some (.lit v) => [("data", .lit v)]
  | none => e

-- ── String-keyed dict helpers (Python dict semantics) ─────────────────

/-- Python `d.get(k)` / `d[k]` on a string-keyed dict. -/
def dictGet {V : Type} (k : String) : List (String × V) → Option V
  | [] => none
  | (k0, v) :: rest => if k0 = k then some v else dictGet k rest

/-- Python `d[k] = v`: replace the binding if present, else append. -/
def dictInsert {V : Type} (k : String) (v : V) : List (String × V) → List (String × V)
  | [] => [(k, v)]
  | (k0, v0) :: rest => if k0 = k then (k, v) :: rest else (k0, v0) :: dictInsert k v rest

/-- In-place mutation of the value bound to `k` (no-op when absent), as the
registry does on `self._active.get(agent_id)`. -/
def dictModify {V : Type} (k : String) (f : V → V) : List (String × V) → List (String × V)
  | [] => []
  | (k0, v0) :: rest => if k0 = k then (k0, f v0) :: rest else (k0, v0) :: dictModify k f rest

/-- Python `d.pop(k, None)`: the removed value (if any) and the remaining dict. -/
def dictRemove {V : Type} (k : String) : List (String × V) → List (String × V)
  | [] => []
  | (k0, v0) :: rest => if k0 = k then dictRemove k rest else (k0, v0) :: dictRemove k rest

def dictPop {V : Type} (k : String) (l : List (String × V)) :
    Option V × List (String × V) :=
  (dictGet k l, dictRemove k l)

-- ── Pipeline events (base_agent.PipelineEvent.to_dict and the plain dict
--    events broadcast by app.py) ────────────────────────────────────────

/-- An event dict as it travels through the registry audit trail and the
WebSocket broadcast.  `id` is `none` for the orchestrator-level dict events in
`app.py`, which carry no `id` key; the optional `inspect_url` /
`cooldown_remaining` keys appear only on the inspection event. -/
structure PipelineEvent where
  id : Option String := none
  step : String
  status : String := "running"
  detail : String := ""
  agent_id : String := ""
  agent_type : String := ""
  inspect_url : Option String := none
  cooldown_remaining : Option Nat := none
  timestamp : Nat
deriving DecidableEq

-- ── Agent classes (the seven BaseAgent subclasses) ────────────────────

/-- The class-level constants of a `BaseAgent` subclass. -/
structure AgentClass where
  AGENT_TYPE : String
  AGENT_ICON : String
  AGENT_DESCRIPTION : String
  python_class : String
deriving DecidableEq

def LogAgentCls : AgentClass :=
  ⟨"log_agent", "📋", "Log Analysis Agent", "LogAgent"⟩
def HealthAgentCls : AgentClass :=
  ⟨"health_agent", "🏥", "Health Check Agent", "HealthAgent"⟩
def MonitoringAgentCls : AgentClass :=
  ⟨"monitoring_agent", "📡", "Monitoring Control Agent", "MonitoringAgent"⟩
def RunbookAgentCls : AgentClass :=
  ⟨"runbook_agent", "📕", "Runbook Automation Agent", "RunbookAgent"⟩
def TraceAgentCls : AgentClass :=
  ⟨"trace_agent", "🔗", "Trace Analysis Agent", "TraceAgent"⟩
def DashboardAgentCls : AgentClass :=
  ⟨"dashboard_agent", "📊", "SRE Dashboard Agent", "DashboardAgent"⟩
def DeploymentAgentCls : AgentClass :=
  ⟨"deployment_agent", "🚀", "Deployment Management Agent", "DeploymentAgent"⟩

/-- `AGENT_CLASSES` in app.py. -/
def AGENT_CLASSES : List (String × AgentClass) :=
  [("log_agent", LogAgentCls), ("health_agent", HealthAgentCls),
   ("monitoring_agent", MonitoringAgentCls), ("runbook_agent", RunbookAgentCls),
   ("trace_agent", TraceAgentCls), ("dashboard_agent", DashboardAgentCls),
   ("deployment_agent", DeploymentAgentCls)]

/-- A live `BaseAgent` instance.  `has_event_callback` records whether an
`event_callback` was supplied at construction (the WebSocket path wires the
broadcaster in; the REST path passes none, so `self._emit` is a no-op). -/
structure Agent where
  agent_id : String
  cls : AgentClass
  python_object_id : Nat
  has_event_callback : Bool
  created_at : Nat
  completed_at : Option Nat := none
  result : Option PyDict := none
deriving DecidableEq

-- ── Registry (agent_registry.AgentRegistry) ───────────────────────────

/-- One value of `AgentRegistry._active` / element of `_completed`. -/
structure RegistryEntry where
  agent_id : String
  agent_type : String
  agent_icon : String
  description : String
  python_object_id : Nat
  python_class : String
  thread_id : Nat
  thread_name : String
  process_id : Nat
  created_at : Nat
  status : String
  action : Option String := none
  params : Option PyDict := none
  completed_at : Option Nat := none
  duration_seconds : Option Nat := none
  result_status : Option PyLit := none
  result_size_bytes : Option Nat := none
  events : List PipelineEvent := []
  seq : Nat
deriving DecidableEq

structure AgentRegistry where
  active : List (String × RegistryEntry) := []
  completed : List RegistryEntry := []
  max_completed : Nat := 200
  total_created : Nat := 0
  total_destroyed : Nat := 0
deriving DecidableEq

/-- Ambient process facts read inside `register` (thread, pid) together with
the entropy stream for `uuid4` draws, the object-id source for `id(agent)`,
the opaque LLM response formatter, and the cooldown length. -/
structure OrchestratorEnv where
  uuidSrc : Nat → String
  objIdSrc : Nat → Nat
  thread_id : Nat
  thread_name : String
  process_id : Nat
  formatter : String → String → Envelope → String
  cooldown_ms : Nat

/-- The entry built inside `AgentRegistry.register` for an agent, given the
sequence number it receives. -/
def mkEntry (env : OrchestratorEnv) (a : Agent) (seq : Nat) : RegistryEntry :=
  { agent_id := a.agent_id
    agent_type := a.cls.AGENT_TYPE
    agent_icon := a.cls.AGENT_ICON
    description := a.cls.AGENT_DESCRIPTION
    python_object_id := a.python_object_id
    python_class := a.cls.python_class
    thread_id := env.thread_id
    thread_name := env.thread_name
    process_id := env.process_id
    created_at := a.created_at
    status := "active"
    seq := seq }

/-- `AgentRegistry.register`. -/
def register (env : OrchestratorEnv) (a : Agent) (reg : AgentRegistry) :
    RegistryEntry × AgentRegistry :=
  let tc := reg.total_created + 1
  let entry := mkEntry env a tc
  (entry, { reg with total_created := tc,
                     active := dictInsert a.agent_id entry reg.active })

/-- `AgentRegistry.record_event`: append to the audit trail if still active. -/
def record_event (reg : AgentRegistry) (agent_id : String) (event : PipelineEvent) :
    AgentRegistry :=
  let f : RegistryEntry → RegistryEntry := fun e => { e with events := e.events ++ [event] }
  { reg with active := dictModify agent_id f reg.active }

/-- `AgentRegistry.update_action`. -/
def update_action (reg : AgentRegistry) (agent_id : String) (action : String)
    (params : PyDict) : AgentRegistry :=
  let f : RegistryEntry → RegistryEntry := fun e =>
    { e with action := some action, params := some params, status := "executing" }
  { reg with active := dictModify agent_id f reg.active }

/-- The finalisation `deregister` performs on the popped entry. -/
def finalizeEntry (e : RegistryEntry) (now : Nat) (a : Agent) (result : PyDict) :
    RegistryEntry :=
  { e with completed_at := some now,
           status := "destroyed",
           duration_seconds := some (now - a.created_at),
           result_status := some (pyGet result "status" (.s "unknown")),
           result_size_bytes := some (pyStr result).length }

/-- Append to `_completed` and evict the oldest entry past the bound
(the `append` / `pop(0)` pair in `deregister`). -/
def pushBounded (m : Nat) (l : List RegistryEntry) (x : RegistryEntry) :
    List RegistryEntry :=
  let l2 := l ++ [x]
  if l2.length > m then l2.tail else l2

/-- `AgentRegistry.deregister` (`now` is the `datetime.utcnow()` reading). -/
def deregister (now : Nat) (reg : AgentRegistry) (a : Agent) (result : PyDict) :
    Option RegistryEntry × AgentRegistry :=
  match dictPop a.agent_id reg.active with
  | (none, _) => (none, reg)
  | (some e, rest) =>
    let e2 := finalizeEntry e now a result
    (some e2,
      { reg with active := rest,
                 completed := pushBounded reg.max_completed reg.completed e2,
                 total_destroyed := reg.total_destroyed + 1 })

/-- `AgentRegistry.get_active`. -/
def get_active (reg : AgentRegistry) : List RegistryEntry :=
  reg.active.map Prod.snd

/-- Python `l[-limit:]`: the last `limit` elements — except that `limit = 0`
yields the whole list (`l[-0:] == l[0:]`). -/
def sliceLast {α : Type} (l : List α) (limit : Nat) : List α :=
  if limit = 0 then l else l.drop (l.length - limit)

/-- `AgentRegistry.get_completed`. -/
def get_completed (reg : AgentRegistry) (limit : Nat) : List RegistryEntry :=
  (sliceLast reg.completed limit).reverse

/-- `AgentRegistry.get_agent`: active table first, then completed history
(searched most-recent-first). -/
def get_agent (reg : AgentRegistry) (agent_id : String) : Option RegistryEntry :=
  match dictGet agent_id reg.active with
  | some e => some e
  | none => reg.completed.reverse.find? (fun e => e.agent_id = agent_id)

-- ── World state threaded through the orchestrator (app.py globals) ────

/-- A task created by `asyncio.create_task(delayed_agent_destruction(...))`:
it fires `cooldown_ms` after the clock reading at scheduling time. -/
structure PendingTask where
  fireAt : Nat
  agent : Agent
  agent_name : String
deriving DecidableEq

/-- The mutable process state: the registry singleton, the stream of events
pushed to the broadcaster (in `broadcast_pipeline_event` call order), the
`_cooldown_agents` reference pool, the scheduled destruction tasks, the
`agent_history` ring, the model clock and the entropy counter. -/
structure World where
  reg : AgentRegistry := {}
  broadcastLog : List PipelineEvent := []
  cooldownAgents : List (String × Agent) := []
  pendingTasks : List PendingTask := []
  history : List (String × String × String × String × String) := []
  clock : Nat := 0
  uuidCtr : Nat := 0
deriving DecidableEq

/-- `MAX_HISTORY` in app.py. -/
def MAX_HISTORY : Nat := 100

/-- `broadcast_pipeline_event`: push one event to every connected observer. -/
def broadcastEvent (ev : PipelineEvent) (w : World) : World :=
  { w with broadcastLog := w.broadcastLog ++ [ev] }

/-- `BaseAgent.__init__`: draw a uuid for the id, stamp `created_at`, and
register with the registry singleton.  `hasCb` is whether an
`event_callback` was supplied. -/
def newAgent (env : OrchestratorEnv) (cls : AgentClass) (hasCb : Bool) (w : World) :
    Agent × World :=
  let a : Agent :=
    { agent_id := "agent-" ++ (env.uuidSrc w.uuidCtr).take 8
      cls := cls
      python_object_id := env.objIdSrc w.uuidCtr
      has_event_callback := hasCb
      created_at := w.clock }
  let (_, reg) := register env a w.reg
  (a, { w with uuidCtr := w.uuidCtr + 1, reg := reg })

/-- `BaseAgent.emit`: build a `PipelineEvent`, append it to the registry audit
trail, then push it through the event callback (the broadcaster on the
WebSocket path, a no-op when no callback was supplied). -/
def emitEvent (env : OrchestratorEnv) (a : Agent) (step status detail : String)
    (w : World) : PipelineEvent × World :=
  let ev : PipelineEvent :=
    { id := some ((env.uuidSrc w.uuidCtr).take 8)
      step := step
      status := status
      detail := detail
      agent_id := a.agent_id
      agent_type := a.cls.AGENT_TYPE
      timestamp := w.clock }
  (ev, { w with
         uuidCtr := w.uuidCtr + 1,
         reg := record_event w.reg a.agent_id ev,
         broadcastLog := if a.has_event_callback then w.broadcastLog ++ [ev]
                         else w.broadcastLog })

/-- The observable behaviour of a variant's `execute(action, params)`:
either a raw result dict or a raised exception, taking `durMs` of wall time.
The variant-specific tool calls behind it are external collaborators. -/
inductive ExecBehavior where
  | ok (result : PyDict) (durMs : Nat)
  | exc (msg : String) (durMs : Nat)
deriving DecidableEq

/-- `BaseAgent.run`: the uniform lifecycle wrapper around `execute`. -/
def runAgent (env : OrchestratorEnv) (a : Agent) (action : String) (params : PyDict)
    (beh : ExecBehavior) (w : World) : Envelope × Agent × World :=
  let w := { w with reg := update_action w.reg a.agent_id action params }
  let (_, w) := emitEvent env a "🔍 Analyzing request" "completed" ("Action: " ++ action) w
  let (_, w) := emitEvent env a (a.cls.AGENT_ICON ++ " Creating " ++ a.cls.AGENT_DESCRIPTION)
      "running" ("ID: " ++ a.agent_id) w
  let (_, w) := emitEvent env a (a.cls.AGENT_ICON ++ " " ++ a.cls.AGENT_DESCRIPTION ++ " active")
      "completed" "" w
  let (_, w) := emitEvent env a "📡 Connecting to MCP Server" "running" "IBM Cloud Code Engine" w
  match beh with
  | .ok result durMs =>
    let w := { w with clock := w.clock + durMs }
    let a := { a with result := some result }
    let (_, w) := emitEvent env a "📦 Processing results" "completed"
        ("Got " ++ toString (pyStr result).length ++ " bytes") w
    let a := { a with completed_at := some w.clock }
    let duration := w.clock - a.created_at
    let (_, w) := emitEvent env a ("✅ " ++ a.cls.AGENT_DESCRIPTION ++ " completed")
        "completed" ("Duration: " ++ toString duration ++ "s") w
    ([("status", .lit (.s "success")), ("agent_id", .lit (.s a.agent_id)),
      ("agent_type", .lit (.s a.cls.AGENT_TYPE)), ("action", .lit (.s action)),
      ("duration_seconds", .lit (.n duration)), ("data", .dict result)], a, w)
  | .exc msg durMs =>
    let w := { w with clock := w.clock + durMs }
    let (_, w) := emitEvent env a ("❌ " ++ a.cls.AGENT_DESCRIPTION ++ " failed") "error" msg w
    ([("status", .lit (.s "error")), ("agent_id", .lit (.s a.agent_id)),
      ("agent_type", .lit (.s a.cls.AGENT_TYPE)), ("action", .lit (.s action)),
      ("error", .lit (.s msg))], a, w)

/-- Python `agent.result or {"status": "unknown"}` (an empty dict is falsy). -/
def resultOrUnknown (r : Option PyDict) : PyDict :=
  match r with
  | some d => if d = [] then [("status", .s "unknown")] else d
  | none => [("status", .s "unknown")]

/-- `delayed_agent_destruction` in app.py: sleep until the cooldown fires,
deregister, drop the kept reference, and broadcast the destruction event. -/
def delayed_agent_destruction (env : OrchestratorEnv) (t : PendingTask) (w : World) :
    World :=
  let w := { w with clock := max w.clock t.fireAt }
  let result := resultOrUnknown t.agent.result
  let (_, reg) := deregister w.clock w.reg t.agent result
  let w := { w with reg := reg,
                    cooldownAgents := dictRemove t.agent.agent_id w.cooldownAgents }
  broadcastEvent
    { step := "🗑️ Destroying " ++ t.agent.cls.AGENT_DESCRIPTION
      status := "completed"
      detail := "Agent " ++ t.agent.agent_id ++ " terminated after "
                ++ toString env.cooldown_ms ++ "s cooldown"
      agent_id := t.agent.agent_id
      agent_type := t.agent_name
      timestamp := w.clock } w

-- ── The LLM brain (llm_brain.LLMBrain.classify_intent) ────────────────

/-- The parsed intent dict, with each key optional (Python `.get`). -/
structure IntentDict where
  agent : Option String := none
  action : Option String := none
  params : Option PyDict := none
  reasoning : Option String := none
deriving DecidableEq

/-- Outcome of the Claude call plus JSON parse inside `classify_intent`:
a parsed dict, a `json.JSONDecodeError` on the returned text, or any other
exception (API error etc.). -/
inductive ClassifierOutcome where
  | ok (d : IntentDict)
  | parseError (raw : String)
  | exc (msg : String)
deriving DecidableEq

/-- `LLMBrain.classify_intent`: both failure branches fall back to the
health-check default. -/
def classify_intent : ClassifierOutcome → IntentDict
  | .ok d => d
  | .parseError raw =>
    { agent := some "health_agent", action := some "check_all", params := some [],
      reasoning := some ("Could not parse intent, defaulting to health check. Raw: "
                         ++ raw.take 200) }
  | .exc msg =>
    { agent := some "health_agent", action := some "check_all", params := some [],
      reasoning := some ("LLM error: " ++ msg ++ ", defaulting to health check") }

-- ── The orchestrator flows (app.py) ───────────────────────────────────

/-- What the requesting WebSocket client receives for one utterance:
a chat response `(message, agent_type, session_id)`. -/
inductive WsResponse where
  | chat (message : String) (agent_type : String) (session_id : String)
deriving DecidableEq

/-- One iteration of the `websocket_endpoint` receive loop for an already
stripped `userMessage`, with the classifier outcome and the executor
behaviour of the spawned worker supplied as collaborator parameters.
Returns the chat response sent to the requester (none when the empty-message
`continue` is taken). -/
def wsHandleUtterance (env : OrchestratorEnv) (session_id userMessage : String)
    (outcome : ClassifierOutcome) (beh : ExecBehavior) (w : World) :
    Option WsResponse × World :=
  if userMessage = "" then (none, w) else
  let w := broadcastEvent
    { step := "🧠 Analyzing user query", status := "running",
      detail := userMessage.take 80, agent_id := session_id,
      agent_type := "orchestrator", timestamp := w.clock } w
  let intent := classify_intent outcome
  let agent_name := intent.agent.getD "health_agent"
  let action := intent.action.getD "check_all"
  let params := intent.params.getD []
  let reasoning := intent.reasoning.getD ""
  let w := broadcastEvent
    { step := "🧠 Intent classified", status := "completed",
      detail := "Agent: " ++ agent_name ++ " | Action: " ++ action ++ " | " ++ reasoning,
      agent_id := session_id, agent_type := "orchestrator", timestamp := w.clock } w
  match dictGet agent_name AGENT_CLASSES with
  | none =>
    (some (.chat ("❌ Unknown agent: " ++ agent_name) "" session_id), w)
  | some cls =>
    let (a, w) := newAgent env cls true w
    let (result, a, w) := runAgent env a action params beh w
    let w := { w with cooldownAgents := dictInsert a.agent_id a w.cooldownAgents }
    let w := broadcastEvent
      { step := "🔗 Agent available for inspection", status := "completed",
        detail := "Inspect agent " ++ a.agent_id ++ " before auto-destruction",
        inspect_url := some ("/inspect/" ++ a.agent_id),
        agent_id := a.agent_id, agent_type := agent_name,
        cooldown_remaining := some env.cooldown_ms, timestamp := w.clock } w
    let w := { w with pendingTasks :=
        w.pendingTasks ++ [⟨w.clock + env.cooldown_ms, a, agent_name⟩] }
    let w := broadcastEvent
      { step := "🧠 Formatting response with AI", status := "running",
        detail := "Claude is summarizing the results",
        agent_id := a.agent_id, agent_type := agent_name, timestamp := w.clock } w
    let formatted := env.formatter agent_name action (envGetData result)
    let w := broadcastEvent
      { step := "🧠 Response formatted", status := "completed",
        detail := toString formatted.length ++ " chars",
        agent_id := a.agent_id, agent_type := agent_name, timestamp := w.clock } w
    let statusStr :=
      match envLookup result "status" with
      | some (.lit (.s v)) => v
      | _ => "unknown"
    let w := { w with history :=
        w.history ++ [(session_id, userMessage, agent_name, action, statusStr)] }
    let w := { w with history :=
        if w.history.length > MAX_HISTORY then w.history.tail else w.history }
    let w := broadcastEvent
      { step := "✨ Request complete", status := "completed",
        detail := "Session " ++ session_id, agent_id := session_id,
        agent_type := "orchestrator", timestamp := w.clock } w
    (some (.chat formatted agent_name session_id), w)

/-- The JSON reply of the REST `/api/query` endpoint. -/
inductive RestResponse where
  | jsonError (error : String) (status_code : Nat)
  | ok (agent action reasoning formatted : String) (raw : Envelope)
deriving DecidableEq

/-- The `POST /api/query` handler: classify, spawn the worker **without an
event callback**, run it, format — and return.  No destruction task is
created on this path. -/
def restQuery (env : OrchestratorEnv) (userMessage : String)
    (outcome : ClassifierOutcome) (beh : ExecBehavior) (w : World) :
    RestResponse × World :=
  if userMessage = "" then (.jsonError "message is required" 400, w) else
  let intent := classify_intent outcome
  let agent_name := intent.agent.getD "health_agent"
  let action := intent.action.getD "check_all"
  let params := intent.params.getD []
  let reasoning := intent.reasoning.getD ""
  match dictGet agent_name AGENT_CLASSES with
  | none => (.jsonError ("Unknown agent: " ++ agent_name) 400, w)
  | some cls =>
    let (a, w) := newAgent env cls false w
    let (result, _, w) := runAgent env a action params beh w
    let formatted := env.formatter agent_name action (envGetData result)
    (.ok agent_name action reasoning formatted result, w)

-- ── Sample collaborators for concrete scenarios ───────────────────────

/-- A concrete environment: an injective entropy stream (8-digit decimal
fragments), a formatter stub, and the default 120 s cooldown
(`AGENT_COOLDOWN_SECONDS = 120`, model unit ms). -/
def sampleEnv : OrchestratorEnv :=
  { uuidSrc := fun n => toString (10000000 + n)
    objIdSrc := fun n => 140000000 + n
    thread_id := 1
    thread_name := "MainThread"
    process_id := 42
    formatter := fun name action raw =>
      "Report from " ++ name ++ "/" ++ action ++ ": " ++ toString raw.length ++ " fields"
    cooldown_ms := 120000 }

/-- The same environment with a constant entropy stream: every `uuid4` call
returns the same hex digest. -/
def collidingEnv : OrchestratorEnv :=
  { sampleEnv with uuidSrc := fun _ => "00000000000000000000000000000000" }

-- ── Helper lemmas on the dict model ───────────────────────────────────

theorem dictGet_dictModify {V : Type} (k : String) (f : V → V) (l : List (String × V)) :
    dictGet k (dictModify k f l) = (dictGet k l).map f := by
  induction l with
  | nil => rfl
  | cons p rest ih =>
    obtain ⟨k0, v0⟩ := p
    by_cases hk : k0 = k <;> simp [dictModify, dictGet, hk, ih]

theorem dictGet_dictInsert {V : Type} (k : String) (v : V) (l : List (String × V)) :
    dictGet k (dictInsert k v l) = some v := by
  induction l with
  | nil => simp [dictInsert, dictGet]
  | cons p rest ih =>
    obtain ⟨k0, v0⟩ := p
    by_cases hk : k0 = k <;> simp [dictInsert, dictGet, hk, ih]

theorem dictGet_dictRemove {V : Type} (k : String) (l : List (String × V)) :
    dictGet k (dictRemove k l) = none := by
  induction l with
  | nil => rfl
  | cons p rest ih =>
    obtain ⟨k0, v0⟩ := p
    by_cases hk : k0 = k <;> simp [dictRemove, dictGet, hk, ih]

/-- The last element appended by `pushBounded` survives whenever the bound is
at least one: eviction removes only the oldest entry. -/
theorem mem_pushBounded_last (m : Nat) (l : List RegistryEntry) (x : RegistryEntry)
    (hm : 1 ≤ m) : x ∈ pushBounded m l x := by
  unfold pushBounded
  by_cases hgt : (l ++ [x]).length > m
  · rw [if_pos hgt]
    have hne : l ≠ [] := by
      intro h
      subst h
      simp at hgt
      omega
    rw [List.tail_append_singleton_of_ne_nil hne]
    simp
  · rw [if_neg hgt]
    simp

/-- The last `m` elements of a list. -/
def takeLast {α : Type} (m : Nat) (l : List α) : List α :=
  l.drop (l.length - m)

theorem takeLast_length {α : Type} (m : Nat) (l : List α) :
    (takeLast m l).length = min m l.length := by
  simp [takeLast]
  omega

theorem takeLast_nil {α : Type} (m : Nat) : takeLast (α := α) m [] = [] := by
  simp [takeLast]

theorem pushBounded_takeLast (m : Nat) (L : List RegistryEntry) (x : RegistryEntry) :
    pushBounded m (takeLast m L) x = takeLast m (L ++ [x]) := by
  unfold pushBounded takeLast
  rcases Nat.eq_zero_or_pos m with hm | hm
  · subst hm
    have hgt : ((L.drop (L.length - 0)) ++ [x]).length > 0 := by simp
    rw [if_pos hgt]
    simp
  · by_cases hlt : L.length < m
    · have h1 : L.length - m = 0 := by omega
      have h2 : (L ++ [x]).length - m = 0 := by simp; omega
      have h3 : ¬ (((L.drop (L.length - m)) ++ [x]).length > m) := by
        rw [h1]
        simp
        omega
      rw [if_neg h3, h1, h2]
      simp
    · have hge : m ≤ L.length := by omega
      have hlen : (L.drop (L.length - m)).length = m := by simp; omega
      have hgt : ((L.drop (L.length - m)) ++ [x]).length > m := by
        rw [List.length_append, hlen]
        simp
      rw [if_pos hgt]
      have hne : L.drop (L.length - m) ≠ [] := by
        intro h
        rw [h] at hlen
        simp at hlen
        omega
      rw [List.tail_append_singleton_of_ne_nil hne, List.tail_drop]
      have hd : (L ++ [x]).length - m = (L.length - m) + 1 := by simp; omega
      rw [hd, List.drop_append_of_le_length (by omega)]

theorem foldl_pushBounded (m : Nat) (xs : List RegistryEntry) :
    ∀ L : List RegistryEntry,
      List.foldl (pushBounded m) (takeLast m L) xs = takeLast m (L ++ xs) := by
  induction xs with
  | nil => intro L; simp
  | cons x rest ih =>
    intro L
    have h1 : List.foldl (pushBounded m) (takeLast m L) (x :: rest)
        = List.foldl (pushBounded m) (pushBounded m (takeLast m L) x) rest := rfl
    rw [h1, pushBounded_takeLast, ih (L ++ [x])]
    simp

-- ── Sample data for concrete instantiations ───────────────────────────

def sampleAgent (cls : AgentClass) (idStr : String) (t : Nat) : Agent :=
  { agent_id := idStr, cls := cls, python_object_id := 140000001,
    has_event_callback := false, created_at := t }

def c7Agent : Agent := sampleAgent HealthAgentCls "agent-11111111" 100

def c7Reg : AgentRegistry := (register sampleEnv c7Agent {}).2

def c9Entry (i : Nat) : RegistryEntry :=
  mkEntry sampleEnv (sampleAgent HealthAgentCls ("agent-e" ++ toString i) 0) i

def c9Reg : AgentRegistry := { completed := [c9Entry 1, c9Entry 2] }

-- ── Claim C7 ──────────────────────────────────────────────────────────

/-- C7: deregistration is idempotent — with the worker active, the first
`deregister` returns the finalized record; a second call for the same id
returns none and leaves the registry (active table, completed table and
both counters) exactly as the first call left it. -/
theorem deregister_idempotent (reg : AgentRegistry) (a : Agent)
    (result result2 : PyDict) (now now2 : Nat) (e : RegistryEntry)
    (h : dictGet a.agent_id reg.active = some e) :
    (deregister now reg a result).1 = some (finalizeEntry e now a result) ∧
    deregister now2 (deregister now reg a result).2 a result2 =
      (none, (deregister now reg a result).2) := by
  have hpop : dictPop a.agent_id reg.active = (some e, dictRemove a.agent_id reg.active) := by
    simp [dictPop, h]
  have hfst : deregister now reg a result =
      (some (finalizeEntry e now a result),
        { reg with active := dictRemove a.agent_id reg.active,
                   completed := pushBounded reg.max_completed reg.completed
                     (finalizeEntry e now a result),
                   total_destroyed := reg.total_destroyed + 1 }) := by
    simp [deregister, hpop]
  refine ⟨by rw [hfst], ?_⟩
  rw [hfst]
  simp [deregister, dictPop, dictGet_dictRemove]

/-- Witness for C7 at a concrete registry with one active worker. -/
theorem deregister_idempotent_witness :
    dictGet c7Agent.agent_id c7Reg.active = some (mkEntry sampleEnv c7Agent 1) ∧
    ((deregister 500 c7Reg c7Agent [("status", .s "success")]).1
        = some (finalizeEntry (mkEntry sampleEnv c7Agent 1) 500 c7Agent
                  [("status", .s "success")]) ∧
     deregister 900 (deregister 500 c7Reg c7Agent [("status", .s "success")]).2 c7Agent []
        = (none, (deregister 500 c7Reg c7Agent [("status", .s "success")]).2)) :=
  ⟨rfl, deregister_idempotent c7Reg c7Agent [("status", .s "success")] [] 500 900
          (mkEntry sampleEnv c7Agent 1) rfl⟩

-- ── Claim C9 ──────────────────────────────────────────────────────────

/-- C9 counterexample: with two completed records, `get_completed 0` returns
both of them — Python `l[-0:]` is the whole list — so the result is not
capped at the limit 0. -/
theorem get_completed_zero_uncapped :
    (get_completed c9Reg 0).length = 2 ∧ ¬ ((get_completed c9Reg 0).length ≤ 0) := by
  exact ⟨rfl, by decide⟩

/-- C9 (amended): for every positive limit, `get_completed` returns the
most-recent-first reversal of the last `limit` completed records; its length
is `min limit (number completed)` and in particular never exceeds the limit.
(At limit 0 the whole history is returned instead.) -/
theorem get_completed_limit_pos (reg : AgentRegistry) (limit : Nat) (h : 1 ≤ limit) :
    get_completed reg limit = (takeLast limit reg.completed).reverse ∧
    (get_completed reg limit).length = min limit reg.completed.length ∧
    (get_completed reg limit).length ≤ limit := by
  have hne : ¬ (limit = 0) := by omega
  unfold get_completed sliceLast takeLast
  rw [if_neg hne]
  refine ⟨rfl, ?_, ?_⟩ <;> simp <;> omega

/-- Witness for C9 at limit 1 over a two-record history. -/
theorem get_completed_limit_pos_witness :
    1 ≤ 1 ∧
    (get_completed c9Reg 1 = (takeLast 1 c9Reg.completed).reverse ∧
     (get_completed c9Reg 1).length = min 1 c9Reg.completed.length ∧
     (get_completed c9Reg 1).length ≤ 1) :=
  ⟨by decide, get_completed_limit_pos c9Reg 1 (by decide)⟩

-- ── Claim C8 ──────────────────────────────────────────────────────────

/-- Register a worker and immediately deregister it at the supplied time:
one full pass of a record through the registry. -/
def regDestroyCycle (env : OrchestratorEnv) (reg : AgentRegistry)
    (op : Agent × PyDict × Nat) : AgentRegistry :=
  (deregister op.2.2 (register env op.1 reg).2 op.1 op.2.1).2

/-- A whole sequence of register/deregister passes. -/
def regDestroyRun (env : OrchestratorEnv) (reg : AgentRegistry)
    (ops : List (Agent × PyDict × Nat)) : AgentRegistry :=
  ops.foldl (regDestroyCycle env) reg

/-- The finalized records the passes produce, in completion order. -/
def expectedFinal (env : OrchestratorEnv) (seq0 : Nat) :
    List (Agent × PyDict × Nat) → List RegistryEntry
  | [] => []
  | op :: rest =>
    finalizeEntry (mkEntry env op.1 (seq0 + 1)) op.2.2 op.1 op.2.1
      :: expectedFinal env (seq0 + 1) rest

theorem expectedFinal_length (env : OrchestratorEnv) :
    ∀ (ops : List (Agent × PyDict × Nat)) (seq0 : Nat),
      (expectedFinal env seq0 ops).length = ops.length := by
  intro ops
  induction ops with
  | nil => intro seq0; rfl
  | cons op rest ih => intro seq0; simp [expectedFinal, ih]

theorem regDestroyCycle_empty (env : OrchestratorEnv) (reg : AgentRegistry)
    (op : Agent × PyDict × Nat) (h : reg.active = []) :
    regDestroyCycle env reg op =
      { reg with
        active := [],
        completed := pushBounded reg.max_completed reg.completed
          (finalizeEntry (mkEntry env op.1 (reg.total_created + 1)) op.2.2 op.1 op.2.1),
        total_created := reg.total_created + 1,
        total_destroyed := reg.total_destroyed + 1 } := by
  obtain ⟨a, r, now⟩ := op
  simp only [regDestroyCycle, register, deregister, dictPop]
  rw [h]
  simp [dictInsert, dictGet, dictRemove]

theorem regDestroyRun_empty (env : OrchestratorEnv)
    (ops : List (Agent × PyDict × Nat)) :
    ∀ (reg : AgentRegistry), reg.active = [] →
      regDestroyRun env reg ops =
        { reg with
          active := [],
          completed := List.foldl (pushBounded reg.max_completed) reg.completed
            (expectedFinal env reg.total_created ops),
          total_created := reg.total_created + ops.length,
          total_destroyed := reg.total_destroyed + ops.length } := by
  induction ops with
  | nil =>
    intro reg h
    obtain ⟨act, comp, m, tc, td⟩ := reg
    simp only [] at h
    simp [regDestroyRun, expectedFinal, h]
  | cons op rest ih =>
    intro reg h
    have h1 : regDestroyRun env reg (op :: rest)
        = regDestroyRun env (regDestroyCycle env reg op) rest := rfl
    rw [h1, regDestroyCycle_empty env reg op h, ih _ rfl]
    simp [expectedFinal]
    omega

/-- C8: from an empty registry, any sequence of at least `max_completed`
register/deregister passes leaves the completed table holding exactly
`max_completed` records, namely the most recently completed ones (the
oldest having been evicted first). -/
theorem history_bound (env : OrchestratorEnv) (reg : AgentRegistry)
    (ops : List (Agent × PyDict × Nat))
    (h1 : reg.active = []) (h2 : reg.completed = [])
    (h3 : reg.max_completed ≤ ops.length) :
    (regDestroyRun env reg ops).completed
        = takeLast reg.max_completed (expectedFinal env reg.total_created ops) ∧
    (regDestroyRun env reg ops).completed.length = reg.max_completed := by
  rw [regDestroyRun_empty env ops reg h1]
  show List.foldl (pushBounded reg.max_completed) reg.completed
      (expectedFinal env reg.total_created ops) = _ ∧
    (List.foldl (pushBounded reg.max_completed) reg.completed
      (expectedFinal env reg.total_created ops)).length = _
  rw [h2]
  have e1 : ([] : List RegistryEntry) = takeLast reg.max_completed [] :=
    (takeLast_nil _).symm
  rw [e1, foldl_pushBounded]
  simp only [List.nil_append]
  refine ⟨trivial, ?_⟩
  rw [takeLast_length, expectedFinal_length]
  omega

def c8Reg : AgentRegistry := { max_completed := 2 }

def c8Ops : List (Agent × PyDict × Nat) :=
  [(sampleAgent LogAgentCls "agent-aaaa0001" 0, [("status", .s "success")], 10),
   (sampleAgent HealthAgentCls "agent-aaaa0002" 2, [("status", .s "success")], 12),
   (sampleAgent TraceAgentCls "agent-aaaa0003" 4, [("status", .s "error")], 14)]

/-- Witness for C8: three passes through a bound-2 registry. -/
theorem history_bound_witness :
    c8Reg.active = [] ∧ c8Reg.completed = [] ∧ c8Reg.max_completed ≤ c8Ops.length ∧
    ((regDestroyRun sampleEnv c8Reg c8Ops).completed
        = takeLast c8Reg.max_completed (expectedFinal sampleEnv c8Reg.total_created c8Ops) ∧
     (regDestroyRun sampleEnv c8Reg c8Ops).completed.length = c8Reg.max_completed) :=
  ⟨rfl, rfl, by decide, history_bound sampleEnv c8Reg c8Ops rfl rfl (by decide)⟩

-- ── Claim C6: the two-concurrent-requests scenario ────────────────────

def c6IntentA : ClassifierOutcome :=
  .ok { agent := some "log_agent", action := some "get_error_logs",
        params := some [("hours", .n 24), ("limit", .n 100)],
        reasoning := some "User wants to check error logs" }

def c6IntentB : ClassifierOutcome :=
  .ok { agent := some "health_agent", action := some "check_all", params := some [],
        reasoning := some "User wants a full health check" }

/-- Utterance A: its worker's tool call sleeps 200 ms before succeeding. -/
def c6AfterA : World :=
  (wsHandleUtterance sampleEnv "sessionA" "check logs for errors" c6IntentA
    (.ok [("status", .s "success")] 200) {}).2

/-- Utterance B: its worker's tool call returns immediately. -/
def c6AfterB : World :=
  (wsHandleUtterance sampleEnv "sessionB" "is the app healthy?" c6IntentB
    (.ok [("status", .s "success")] 0) c6AfterA).2

/-- Both cooldown tasks fire, B's first. -/
def c6Final : World :=
  match c6AfterB.pendingTasks with
  | [ta, tb] => delayed_agent_destruction sampleEnv ta
      (delayed_agent_destruction sampleEnv tb c6AfterB)
  | _ => c6AfterB

/-- C6 counterexample: in the two-request scenario the fast worker B is
recorded with duration 120000 ms (the whole cooldown) and the slow worker A
with 120200 ms — B's duration is not approximately 0 (not even within a
generous 10 s tolerance), because `deregister` stamps `completed_at` only
when the cooldown fires. -/
theorem c6_claimed_durations_false :
    (get_completed c6Final.reg 50).map (fun e => (e.agent_type, e.duration_seconds))
      = [("log_agent", some 120200), ("health_agent", some 120000)] ∧
    ¬ ∃ e ∈ get_completed c6Final.reg 50,
        e.agent_type = "health_agent" ∧ ∃ d, e.duration_seconds = some d ∧ d ≤ 10000 := by
  exact ⟨rfl, by decide⟩

/-- C6 (amended): both workers do eventually appear in `get_completed`, each
with `duration_seconds = completed_at - created_at`; but since `completed_at`
is stamped when the cooldown task fires, the recorded durations are cooldown
plus execution time: 120200 ms for A (200 ms tool call) and 120000 ms for B
(immediate tool call), with the active table left empty. -/
theorem c6_durations_amended :
    (get_completed c6Final.reg 50).map
        (fun e => (e.agent_type, e.status, e.created_at, e.completed_at, e.duration_seconds))
      = [("log_agent", "destroyed", 0, some 120200, some 120200),
         ("health_agent", "destroyed", 200, some 120200, some 120000)] ∧
    c6Final.reg.active = [] ∧
    ∀ e ∈ get_completed c6Final.reg 50,
      e.duration_seconds = some (e.completed_at.getD 0 - e.created_at) := by
  exact ⟨rfl, rfl, by decide⟩

-- ── Claim C3: the run envelope ────────────────────────────────────────

def c3Agent : Agent := sampleAgent LogAgentCls "agent-22222222" 0

def c3World : World := { reg := (register sampleEnv c3Agent {}).2 }

/-- C3 counterexample: when `execute` raises, `run` returns the error
envelope — which carries no `duration_seconds` field at all, so the envelope
does not always contain the claimed field set. -/
theorem run_error_envelope_missing_duration :
    envLookup (runAgent sampleEnv c3Agent "get_error_logs" []
        (.exc "MCP connection refused" 50) c3World).1 "duration_seconds" = none ∧
    envLookup (runAgent sampleEnv c3Agent "get_error_logs" []
        (.exc "MCP connection refused" 50) c3World).1 "status"
      = some (.lit (.s "error")) := by
  exact ⟨rfl, rfl⟩

/-- C3 (amended): `run` never propagates a failure of `execute` and always
returns a well-formed envelope — on success
`{status, agent_id, agent_type, action, duration_seconds, data}`, on failure
`{status, agent_id, agent_type, action, error}` **without** `duration_seconds`
— and on failure the worker's audit trail ends with a terminal error-phase
event. -/
theorem run_envelope_spec (env : OrchestratorEnv) (a : Agent) (action : String)
    (params : PyDict) (w : World) (e : RegistryEntry)
    (h : dictGet a.agent_id w.reg.active = some e) :
    (∀ (r : PyDict) (d : Nat), (runAgent env a action params (.ok r d) w).1 =
      [("status", .lit (.s "success")), ("agent_id", .lit (.s a.agent_id)),
       ("agent_type", .lit (.s a.cls.AGENT_TYPE)), ("action", .lit (.s action)),
       ("duration_seconds", .lit (.n (w.clock + d - a.created_at))), ("data", .dict r)]) ∧
    (∀ (m : String) (d : Nat),
      (runAgent env a action params (.exc m d) w).1 =
        [("status", .lit (.s "error")), ("agent_id", .lit (.s a.agent_id)),
         ("agent_type", .lit (.s a.cls.AGENT_TYPE)), ("action", .lit (.s action)),
         ("error", .lit (.s m))] ∧
      envLookup (runAgent env a action params (.exc m d) w).1 "duration_seconds" = none ∧
      ∃ e2, dictGet a.agent_id
              (runAgent env a action params (.exc m d) w).2.2.reg.active = some e2 ∧
            e2.events.getLast?.map (fun ev => ev.status) = some "error") := by
  refine ⟨fun r d => rfl, fun m d => ⟨rfl, rfl, ?_⟩⟩
  simp only [runAgent, emitEvent, record_event, update_action, broadcastEvent]
  simp only [dictGet_dictModify, h, Option.map_some']
  refine ⟨_, rfl, ?_⟩
  simp [List.getLast?_concat]

/-- Witness for C3 at a concrete registered worker. -/
theorem run_envelope_spec_witness :
    dictGet c3Agent.agent_id c3World.reg.active = some (mkEntry sampleEnv c3Agent 1) ∧
    ((∀ (r : PyDict) (d : Nat),
        (runAgent sampleEnv c3Agent "get_error_logs" [] (.ok r d) c3World).1 =
        [("status", .lit (.s "success")), ("agent_id", .lit (.s c3Agent.agent_id)),
         ("agent_type", .lit (.s c3Agent.cls.AGENT_TYPE)),
         ("action", .lit (.s "get_error_logs")),
         ("duration_seconds", .lit (.n (c3World.clock + d - c3Agent.created_at))),
         ("data", .dict r)]) ∧
     (∀ (m : String) (d : Nat),
        (runAgent sampleEnv c3Agent "get_error_logs" [] (.exc m d) c3World).1 =
          [("status", .lit (.s "error")), ("agent_id", .lit (.s c3Agent.agent_id)),
           ("agent_type", .lit (.s c3Agent.cls.AGENT_TYPE)),
           ("action", .lit (.s "get_error_logs")),
           ("error", .lit (.s m))] ∧
        envLookup (runAgent sampleEnv c3Agent "get_error_logs" [] (.exc m d) c3World).1
            "duration_seconds" = none ∧
        ∃ e2, dictGet c3Agent.agent_id
                (runAgent sampleEnv c3Agent "get_error_logs" []
                  (.exc m d) c3World).2.2.reg.active = some e2 ∧
              e2.events.getLast?.map (fun ev => ev.status) = some "error")) :=
  ⟨rfl, run_envelope_spec sampleEnv c3Agent "get_error_logs" [] c3World
          (mkEntry sampleEnv c3Agent 1) rfl⟩

-- ── Shared lemmas about the lifecycle steps ───────────────────────────

theorem pyGet_resultOrUnknown (r : PyDict) :
    pyGet (resultOrUnknown (some r)) "status" (.s "unknown")
      = pyGet r "status" (.s "unknown") := by
  by_cases h : r = []
  · subst h; rfl
  · show pyGet (if r = [] then _ else r) "status" (.s "unknown") = _
    rw [if_neg h]

/-- A finalized record freshly appended to the bounded history is found by
the most-recent-first search, whenever the bound admits at least one entry. -/
theorem find?_pushBounded (m : Nat) (l : List RegistryEntry) (x : RegistryEntry)
    (p : RegistryEntry → Bool) (hm : 1 ≤ m) (hp : p x = true) :
    (pushBounded m l x).reverse.find? p = some x := by
  unfold pushBounded
  by_cases hgt : (l ++ [x]).length > m
  · rw [if_pos hgt]
    have hne : l ≠ [] := by
      intro hnil
      subst hnil
      simp at hgt
      omega
    rw [List.tail_append_singleton_of_ne_nil hne, List.reverse_append]
    simp [hp]
  · rw [if_neg hgt, List.reverse_append]
    simp [hp]

/-- After `run`, the worker is still in the active table, under the same
`agent_id` field. -/
theorem runAgent_active_after (env : OrchestratorEnv) (a : Agent) (action : String)
    (params : PyDict) (beh : ExecBehavior) (w : World) (e : RegistryEntry)
    (h : dictGet a.agent_id w.reg.active = some e) :
    ∃ e2, dictGet a.agent_id (runAgent env a action params beh w).2.2.reg.active
        = some e2 ∧ e2.agent_id = e.agent_id := by
  cases beh with
  | ok r d =>
    simp only [runAgent, emitEvent, record_event, update_action]
    simp only [dictGet_dictModify, h, Option.map_some']
    exact ⟨_, rfl, rfl⟩
  | exc m d =>
    simp only [runAgent, emitEvent, record_event, update_action]
    simp only [dictGet_dictModify, h, Option.map_some']
    exact ⟨_, rfl, rfl⟩

/-- On the success path `run` stores the raw result on the agent. -/
theorem runAgent_agent_after_ok (env : OrchestratorEnv) (a : Agent) (action : String)
    (params : PyDict) (r : PyDict) (d : Nat) (w : World) :
    (runAgent env a action params (.ok r d) w).2.1
      = { a with result := some r, completed_at := some (w.clock + d) } := rfl

/-- On the failure path `run` leaves the agent's stored result untouched. -/
theorem runAgent_agent_after_exc (env : OrchestratorEnv) (a : Agent) (action : String)
    (params : PyDict) (m : String) (d : Nat) (w : World) :
    (runAgent env a action params (.exc m d) w).2.1 = a := rfl

/-- What a fired cooldown task does to the registry: the worker leaves the
active table and its finalized record (timestamped at the firing instant,
result taken from `agent.result or {"status": "unknown"}`) lands in the
bounded completed history, where `get_agent` finds it. -/
theorem delayed_destruction_spec (env : OrchestratorEnv) (t : PendingTask) (w : World)
    (e : RegistryEntry)
    (h : dictGet t.agent.agent_id w.reg.active = some e)
    (hid : e.agent_id = t.agent.agent_id)
    (hm : 1 ≤ w.reg.max_completed) :
    dictGet t.agent.agent_id (delayed_agent_destruction env t w).reg.active = none ∧
    get_agent (delayed_agent_destruction env t w).reg t.agent.agent_id
      = some (finalizeEntry e (max w.clock t.fireAt) t.agent
                (resultOrUnknown t.agent.result)) ∧
    (delayed_agent_destruction env t w).reg.completed
      = pushBounded w.reg.max_completed w.reg.completed
          (finalizeEntry e (max w.clock t.fireAt) t.agent
            (resultOrUnknown t.agent.result)) := by
  have hred : (delayed_agent_destruction env t w).reg
      = { w.reg with
          active := dictRemove t.agent.agent_id w.reg.active,
          completed := pushBounded w.reg.max_completed w.reg.completed
            (finalizeEntry e (max w.clock t.fireAt) t.agent
              (resultOrUnknown t.agent.result)),
          total_destroyed := w.reg.total_destroyed + 1 } := by
    simp only [delayed_agent_destruction, broadcastEvent, deregister, dictPop, h]
  rw [hred]
  refine ⟨dictGet_dictRemove _ _, ?_, rfl⟩
  unfold get_agent
  rw [show dictGet t.agent.agent_id
        (dictRemove t.agent.agent_id w.reg.active) = none from dictGet_dictRemove _ _]
  rw [find?_pushBounded _ _ _ _ hm (by simp [finalizeEntry, hid])]

-- ── Claim C10 ─────────────────────────────────────────────────────────

/-- C10: the cooldown task finalizes the record with `result_status` read
from the raw `execute()` result's `status` key (default `"unknown"`), never
from `run`'s envelope: on the success path the stored raw result's status is
stamped; on the failure path — where `run` returned a `status: error`
envelope but never set `agent.result` — the record is finalized with
`result_status = "unknown"`. -/
theorem destruction_result_status
    (env : OrchestratorEnv) (a : Agent) (name action : String) (params : PyDict)
    (w : World) (e : RegistryEntry) (m : String) (d fAt : Nat)
    (h : dictGet a.agent_id w.reg.active = some e)
    (heid : e.agent_id = a.agent_id)
    (hres : a.result = none)
    (hm : 1 ≤ w.reg.max_completed) :
    (∀ (r : PyDict) (dur fireAt : Nat),
      ∃ e2, get_agent (delayed_agent_destruction env
              ⟨fireAt, (runAgent env a action params (.ok r dur) w).2.1, name⟩
              (runAgent env a action params (.ok r dur) w).2.2).reg a.agent_id
          = some e2 ∧
        e2.result_status = some (pyGet r "status" (.s "unknown")) ∧
        e2.status = "destroyed") ∧
    (envLookup (runAgent env a action params (.exc m d) w).1 "status"
        = some (.lit (.s "error")) ∧
     ∃ e2, get_agent (delayed_agent_destruction env
             ⟨fAt, (runAgent env a action params (.exc m d) w).2.1, name⟩
             (runAgent env a action params (.exc m d) w).2.2).reg a.agent_id
         = some e2 ∧
       e2.result_status = some (.s "unknown") ∧ e2.status = "destroyed") := by
  constructor
  · intro r dur fireAt
    obtain ⟨e2, he2, hid2⟩ := runAgent_active_after env a action params (.ok r dur) w e h
    obtain ⟨hnone, hget, hcomp⟩ := delayed_destruction_spec env
      ⟨fireAt, (runAgent env a action params (.ok r dur) w).2.1, name⟩
      (runAgent env a action params (.ok r dur) w).2.2 e2
      he2 (hid2.trans heid) hm
    refine ⟨_, hget, ?_, rfl⟩
    show some (pyGet (resultOrUnknown (some r)) "status" (.s "unknown"))
        = some (pyGet r "status" (.s "unknown"))
    rw [pyGet_resultOrUnknown]
  · refine ⟨rfl, ?_⟩
    obtain ⟨e2, he2, hid2⟩ := runAgent_active_after env a action params (.exc m d) w e h
    obtain ⟨hnone, hget, hcomp⟩ := delayed_destruction_spec env
      ⟨fAt, (runAgent env a action params (.exc m d) w).2.1, name⟩
      (runAgent env a action params (.exc m d) w).2.2 e2
      he2 (hid2.trans heid) hm
    refine ⟨_, hget, ?_, rfl⟩
    show some (pyGet (resultOrUnknown a.result) "status" (.s "unknown"))
        = some (.s "unknown")
    rw [hres]
    rfl

def c10Agent : Agent := sampleAgent TraceAgentCls "agent-33333333" 5

def c10World : World := { reg := (register sampleEnv c10Agent {}).2 }

/-- Witness for C10: a concrete registered trace worker. -/
theorem destruction_result_status_witness :
    dictGet c10Agent.agent_id c10World.reg.active = some (mkEntry sampleEnv c10Agent 1) ∧
    (mkEntry sampleEnv c10Agent 1).agent_id = c10Agent.agent_id ∧
    c10Agent.result = none ∧ 1 ≤ c10World.reg.max_completed ∧
    ((∀ (r : PyDict) (dur fireAt : Nat),
      ∃ e2, get_agent (delayed_agent_destruction sampleEnv
              ⟨fireAt, (runAgent sampleEnv c10Agent "get_recent_traces" []
                          (.ok r dur) c10World).2.1, "trace_agent"⟩
              (runAgent sampleEnv c10Agent "get_recent_traces" []
                (.ok r dur) c10World).2.2).reg c10Agent.agent_id
          = some e2 ∧
        e2.result_status = some (pyGet r "status" (.s "unknown")) ∧
        e2.status = "destroyed") ∧
     (envLookup (runAgent sampleEnv c10Agent "get_recent_traces" []
          (.exc "boom" 7) c10World).1 "status" = some (.lit (.s "error")) ∧
      ∃ e2, get_agent (delayed_agent_destruction sampleEnv
              ⟨99, (runAgent sampleEnv c10Agent "get_recent_traces" []
                      (.exc "boom" 7) c10World).2.1, "trace_agent"⟩
              (runAgent sampleEnv c10Agent "get_recent_traces" []
                (.exc "boom" 7) c10World).2.2).reg c10Agent.agent_id = some e2 ∧
        e2.result_status = some (.s "unknown") ∧ e2.status = "destroyed")) :=
  ⟨rfl, rfl, rfl, by decide,
   destruction_result_status sampleEnv c10Agent "trace_agent" "get_recent_traces" []
     c10World (mkEntry sampleEnv c10Agent 1) "boom" 7 99 rfl rfl rfl (by decide)⟩

-- ── Claim C4: the audit trail emitted by run ──────────────────────────

/-- The event a worker's `emit` builds at uuid counter `u` and clock `c`. -/
def mkRunEvt (env : OrchestratorEnv) (a : Agent) (u c : Nat)
    (step status detail : String) : PipelineEvent :=
  { id := some ((env.uuidSrc u).take 8), step := step, status := status, detail := detail,
    agent_id := a.agent_id, agent_type := a.cls.AGENT_TYPE, timestamp := c }

/-- The four events `run` emits before invoking `execute`. -/
def preEvts (env : OrchestratorEnv) (a : Agent) (action : String) (u c : Nat) :
    List PipelineEvent :=
  [mkRunEvt env a u c "🔍 Analyzing request" "completed" ("Action: " ++ action),
   mkRunEvt env a (u+1) c (a.cls.AGENT_ICON ++ " Creating " ++ a.cls.AGENT_DESCRIPTION)
     "running" ("ID: " ++ a.agent_id),
   mkRunEvt env a (u+2) c (a.cls.AGENT_ICON ++ " " ++ a.cls.AGENT_DESCRIPTION ++ " active")
     "completed" "",
   mkRunEvt env a (u+3) c "📡 Connecting to MCP Server" "running" "IBM Cloud Code Engine"]

/-- All six events of a successful `run`. -/
def okEvts (env : OrchestratorEnv) (a : Agent) (action : String) (r : PyDict)
    (u c d : Nat) : List PipelineEvent :=
  preEvts env a action u c ++
  [mkRunEvt env a (u+4) (c+d) "📦 Processing results" "completed"
     ("Got " ++ toString (pyStr r).length ++ " bytes"),
   mkRunEvt env a (u+5) (c+d) ("✅ " ++ a.cls.AGENT_DESCRIPTION ++ " completed")
     "completed" ("Duration: " ++ toString (c + d - a.created_at) ++ "s")]

/-- All five events of a failing `run`. -/
def excEvts (env : OrchestratorEnv) (a : Agent) (action m : String)
    (u c d : Nat) : List PipelineEvent :=
  preEvts env a action u c ++
  [mkRunEvt env a (u+4) (c+d) ("❌ " ++ a.cls.AGENT_DESCRIPTION ++ " failed") "error" m]

theorem runAgent_ok_entry (env : OrchestratorEnv) (a : Agent) (action : String)
    (params : PyDict) (r : PyDict) (d : Nat) (w : World) (e : RegistryEntry)
    (h : dictGet a.agent_id w.reg.active = some e) :
    dictGet a.agent_id (runAgent env a action params (.ok r d) w).2.2.reg.active
      = some { e with
               action := some action, params := some params, status := "executing",
               events := e.events ++ okEvts env a action r w.uuidCtr w.clock d } := by
  simp only [runAgent, emitEvent, record_event, update_action]
  simp only [dictGet_dictModify, h, Option.map_some']
  simp [okEvts, preEvts, mkRunEvt, List.append_assoc]

theorem runAgent_exc_entry (env : OrchestratorEnv) (a : Agent) (action : String)
    (params : PyDict) (m : String) (d : Nat) (w : World) (e : RegistryEntry)
    (h : dictGet a.agent_id w.reg.active = some e) :
    dictGet a.agent_id (runAgent env a action params (.exc m d) w).2.2.reg.active
      = some { e with
               action := some action, params := some params, status := "executing",
               events := e.events ++ excEvts env a action m w.uuidCtr w.clock d } := by
  simp only [runAgent, emitEvent, record_event, update_action]
  simp only [dictGet_dictModify, h, Option.map_some']
  simp [excEvts, preEvts, mkRunEvt, List.append_assoc]

theorem runAgent_ok_broadcast (env : OrchestratorEnv) (a : Agent) (action : String)
    (params : PyDict) (r : PyDict) (d : Nat) (w : World) :
    (runAgent env a action params (.ok r d) w).2.2.broadcastLog
      = w.broadcastLog ++
        (if a.has_event_callback then okEvts env a action r w.uuidCtr w.clock d else []) := by
  cases hcb : a.has_event_callback <;>
    simp [runAgent, emitEvent, record_event, update_action, hcb,
      okEvts, preEvts, mkRunEvt, List.append_assoc]

theorem runAgent_exc_broadcast (env : OrchestratorEnv) (a : Agent) (action : String)
    (params : PyDict) (m : String) (d : Nat) (w : World) :
    (runAgent env a action params (.exc m d) w).2.2.broadcastLog
      = w.broadcastLog ++
        (if a.has_event_callback then excEvts env a action m w.uuidCtr w.clock d else []) := by
  cases hcb : a.has_event_callback <;>
    simp [runAgent, emitEvent, record_event, update_action, hcb,
      excEvts, preEvts, mkRunEvt, List.append_assoc]

/-- C4: for a freshly registered worker wired to the broadcaster, the audit
trail observed through `get_by_id` after `run` completes is exactly the
non-empty sequence of events `run` emitted, in emission order; the broadcast
stream received exactly the same sequence; and every broadcast event carrying
this worker's id is present in the registry trail (each `emit` appends to the
registry before pushing to the broadcaster). -/
theorem run_audit_trail (env : OrchestratorEnv) (a : Agent) (action : String)
    (params : PyDict) (beh : ExecBehavior) (w : World) (e : RegistryEntry)
    (h : dictGet a.agent_id w.reg.active = some e)
    (hfresh : e.events = [])
    (hcb : a.has_event_callback = true)
    (hclean : ∀ ev ∈ w.broadcastLog, ev.agent_id ≠ a.agent_id) :
    ∃ evs : List PipelineEvent,
      evs ≠ [] ∧
      (∀ ev ∈ evs, ev.agent_id = a.agent_id ∧ ev.agent_type = a.cls.AGENT_TYPE) ∧
      (∃ e2, get_agent (runAgent env a action params beh w).2.2.reg a.agent_id = some e2 ∧
             e2.events = evs) ∧
      (runAgent env a action params beh w).2.2.broadcastLog = w.broadcastLog ++ evs ∧
      (∀ ev ∈ (runAgent env a action params beh w).2.2.broadcastLog,
        ev.agent_id = a.agent_id →
        ∃ e2, get_agent (runAgent env a action params beh w).2.2.reg a.agent_id = some e2 ∧
              ev ∈ e2.events) := by
  cases beh with
  | ok r d =>
    have hget := runAgent_ok_entry env a action params r d w e h
    have hbc := runAgent_ok_broadcast env a action params r d w
    rw [hcb, if_pos rfl] at hbc
    refine ⟨okEvts env a action r w.uuidCtr w.clock d, ?_, ?_, ?_, hbc, ?_⟩
    · simp [okEvts, preEvts]
    · intro ev hev
      simp only [okEvts, preEvts, List.mem_append, List.mem_cons,
        List.mem_singleton, List.not_mem_nil, or_false] at hev
      rcases hev with (rfl | rfl | rfl | rfl) | (rfl | rfl) <;> exact ⟨rfl, rfl⟩
    · refine ⟨{ e with
                action := some action, params := some params, status := "executing",
                events := e.events ++ okEvts env a action r w.uuidCtr w.clock d }, ?_, ?_⟩
      · simp only [get_agent, hget]
      · simp [hfresh]
    · intro ev hev hevid
      rw [hbc] at hev
      rcases List.mem_append.mp hev with hold | hnew
      · exact absurd hevid (hclean ev hold)
      · refine ⟨{ e with
                  action := some action, params := some params, status := "executing",
                  events := e.events ++ okEvts env a action r w.uuidCtr w.clock d }, ?_, ?_⟩
        · simp only [get_agent, hget]
        · exact List.mem_append.mpr (Or.inr hnew)
  | exc m d =>
    have hget := runAgent_exc_entry env a action params m d w e h
    have hbc := runAgent_exc_broadcast env a action params m d w
    rw [hcb, if_pos rfl] at hbc
    refine ⟨excEvts env a action m w.uuidCtr w.clock d, ?_, ?_, ?_, hbc, ?_⟩
    · simp [excEvts, preEvts]
    · intro ev hev
      simp only [excEvts, preEvts, List.mem_append, List.mem_cons,
        List.mem_singleton, List.not_mem_nil, or_false] at hev
      rcases hev with (rfl | rfl | rfl | rfl) | rfl <;> exact ⟨rfl, rfl⟩
    · refine ⟨{ e with
                action := some action, params := some params, status := "executing",
                events := e.events ++ excEvts env a action m w.uuidCtr w.clock d }, ?_, ?_⟩
      · simp only [get_agent, hget]
      · simp [hfresh]
    · intro ev hev hevid
      rw [hbc] at hev
      rcases List.mem_append.mp hev with hold | hnew
      · exact absurd hevid (hclean ev hold)
      · refine ⟨{ e with
                  action := some action, params := some params, status := "executing",
                  events := e.events ++ excEvts env a action m w.uuidCtr w.clock d }, ?_, ?_⟩
        · simp only [get_agent, hget]
        · exact List.mem_append.mpr (Or.inr hnew)

def c4Agent : Agent :=
  { agent_id := "agent-44444444", cls := DashboardAgentCls, python_object_id := 9,
    has_event_callback := true, created_at := 50 }

def c4World : World := { reg := (register sampleEnv c4Agent {}).2, clock := 50 }

/-- Witness for C4: a concrete dashboard worker with the broadcaster wired. -/
theorem run_audit_trail_witness :
    dictGet c4Agent.agent_id c4World.reg.active = some (mkEntry sampleEnv c4Agent 1) ∧
    (mkEntry sampleEnv c4Agent 1).events = [] ∧
    c4Agent.has_event_callback = true ∧
    (∀ ev ∈ c4World.broadcastLog, ev.agent_id ≠ c4Agent.agent_id) ∧
    (∃ evs : List PipelineEvent,
      evs ≠ [] ∧
      (∀ ev ∈ evs, ev.agent_id = c4Agent.agent_id ∧
                   ev.agent_type = c4Agent.cls.AGENT_TYPE) ∧
      (∃ e2, get_agent (runAgent sampleEnv c4Agent "get_dashboard" []
                (.ok [("status", .s "success")] 30) c4World).2.2.reg c4Agent.agent_id
          = some e2 ∧ e2.events = evs) ∧
      (runAgent sampleEnv c4Agent "get_dashboard" []
          (.ok [("status", .s "success")] 30) c4World).2.2.broadcastLog
        = c4World.broadcastLog ++ evs ∧
      (∀ ev ∈ (runAgent sampleEnv c4Agent "get_dashboard" []
                 (.ok [("status", .s "success")] 30) c4World).2.2.broadcastLog,
        ev.agent_id = c4Agent.agent_id →
        ∃ e2, get_agent (runAgent sampleEnv c4Agent "get_dashboard" []
                 (.ok [("status", .s "success")] 30) c4World).2.2.reg c4Agent.agent_id
            = some e2 ∧ ev ∈ e2.events)) :=
  ⟨rfl, rfl, rfl, by simp [c4World],
   run_audit_trail sampleEnv c4Agent "get_dashboard" []
     (.ok [("status", .s "success")] 30) c4World (mkEntry sampleEnv c4Agent 1)
     rfl rfl rfl (by simp [c4World])⟩

-- ── Claim C2: classifier fallback ─────────────────────────────────────

set_option maxHeartbeats 2000000 in
/-- C2 counterexample: when the classifier parses fine but names a kind
that is not registered (`movie_agent`), the WebSocket handler sends the
requester the error chat `❌ Unknown agent: movie_agent` and spawns no
worker at all — it does not fall back to the default kind. -/
theorem unknown_kind_rejected_not_defaulted :
    (wsHandleUtterance sampleEnv "sess1" "book me a ticket"
        (.ok { agent := some "movie_agent", action := some "book", params := some [],
               reasoning := some "made-up kind" })
        (.ok [("status", .s "success")] 0) {}).1
      = some (.chat "❌ Unknown agent: movie_agent" "" "sess1") ∧
    (wsHandleUtterance sampleEnv "sess1" "book me a ticket"
        (.ok { agent := some "movie_agent", action := some "book", params := some [],
               reasoning := some "made-up kind" })
        (.ok [("status", .s "success")] 0) {}).2.reg.total_created = 0 := by
  exact ⟨rfl, rfl⟩


set_option maxHeartbeats 4000000 in
/-- C2 (amended): the fallback to the default `health_agent` / `check_all`
covers the classifier raising or returning unparseable JSON (both handled
inside `classify_intent`) and a parsed dict lacking an `agent` key (handled
by the `.get` defaults in the handler); in those cases the requester
receives a normal formatted response routed through `health_agent` and one
worker is spawned.  A parsed `agent` value naming an unregistered kind is
instead rejected with an `Unknown agent` error. -/
theorem classifier_fallback (env : OrchestratorEnv) (sid msg : String)
    (outcome : ClassifierOutcome) (beh : ExecBehavior) (w : World)
    (hmsg : ¬ (msg = ""))
    (hout : (∃ raw, outcome = .parseError raw) ∨ (∃ em, outcome = .exc em) ∨
            (∃ dct, outcome = .ok dct ∧ dct.agent = none)) :
    ∃ payload, (wsHandleUtterance env sid msg outcome beh w).1
        = some (.chat (env.formatter "health_agent"
              ((classify_intent outcome).action.getD "check_all") payload)
            "health_agent" sid) ∧
      (wsHandleUtterance env sid msg outcome beh w).2.reg.total_created
        = w.reg.total_created + 1 := by
  rcases hout with ⟨raw, rfl⟩ | ⟨em, rfl⟩ | ⟨dct, rfl, hag⟩
  · cases beh with
    | ok r d =>
      simp only [wsHandleUtterance, if_neg hmsg, classify_intent, newAgent, register,
        runAgent, emitEvent, record_event, update_action, broadcastEvent]
      exact ⟨_, rfl, rfl⟩
    | exc m d =>
      simp only [wsHandleUtterance, if_neg hmsg, classify_intent, newAgent, register,
        runAgent, emitEvent, record_event, update_action, broadcastEvent]
      exact ⟨_, rfl, rfl⟩
  · cases beh with
    | ok r d =>
      simp only [wsHandleUtterance, if_neg hmsg, classify_intent, newAgent, register,
        runAgent, emitEvent, record_event, update_action, broadcastEvent]
      exact ⟨_, rfl, rfl⟩
    | exc m d =>
      simp only [wsHandleUtterance, if_neg hmsg, classify_intent, newAgent, register,
        runAgent, emitEvent, record_event, update_action, broadcastEvent]
      exact ⟨_, rfl, rfl⟩
  · obtain ⟨agf, actf, pf, rf⟩ := dct
    obtain rfl : agf = none := hag
    cases beh with
    | ok r d =>
      simp only [wsHandleUtterance, if_neg hmsg, classify_intent, newAgent, register,
        runAgent, emitEvent, record_event, update_action, broadcastEvent]
      exact ⟨_, rfl, rfl⟩
    | exc m d =>
      simp only [wsHandleUtterance, if_neg hmsg, classify_intent, newAgent, register,
        runAgent, emitEvent, record_event, update_action, broadcastEvent]
      exact ⟨_, rfl, rfl⟩

set_option maxHeartbeats 2000000 in
/-- Witness for C2 on a concrete unparseable classifier reply. -/
theorem classifier_fallback_witness :
    ¬ (("show me the logs" : String) = "") ∧
    ((∃ raw, (ClassifierOutcome.parseError "not json") = .parseError raw) ∨
     (∃ em, (ClassifierOutcome.parseError "not json") = .exc em) ∨
     (∃ dct, (ClassifierOutcome.parseError "not json") = .ok dct ∧ dct.agent = none)) ∧
    ∃ payload, (wsHandleUtterance sampleEnv "sess2" "show me the logs"
        (.parseError "not json") (.ok [("status", .s "success")] 0) {}).1
        = some (.chat (sampleEnv.formatter "health_agent"
              ((classify_intent (.parseError "not json")).action.getD "check_all") payload)
            "health_agent" "sess2") ∧
      (wsHandleUtterance sampleEnv "sess2" "show me the logs"
          (.parseError "not json") (.ok [("status", .s "success")] 0) {}).2.reg.total_created
        = ({} : World).reg.total_created + 1 :=
  ⟨by decide, Or.inl ⟨"not json", rfl⟩,
   classifier_fallback sampleEnv "sess2" "show me the logs" (.parseError "not json")
     (.ok [("status", .s "success")] 0) {} (by decide) (Or.inl ⟨"not json", rfl⟩)⟩


-- ── Claim C1: automatic destruction after cooldown ────────────────────

/-- The world after one successful REST `/api/query` request. -/
def c1RestWorld : World :=
  (restQuery sampleEnv "is the app healthy?"
    (.ok { agent := some "health_agent", action := some "check_all", params := some [],
           reasoning := some "health check" })
    (.ok [("status", .s "success")] 0) {}).2

set_option maxHeartbeats 2000000 in
/-- C1 counterexample: a worker created while handling a REST `/api/query`
request is never scheduled for destruction — after the request completes no
deferred destruction task exists, and the worker sits in the active table
forever (completed history empty, nothing pending that could ever remove
it). -/
theorem rest_worker_never_destroyed :
    c1RestWorld.pendingTasks = [] ∧
    c1RestWorld.reg.active.map Prod.fst = ["agent-10000000"] ∧
    c1RestWorld.reg.completed = [] ∧
    c1RestWorld.reg.total_created = 1 ∧ c1RestWorld.reg.total_destroyed = 0 := by
  exact ⟨rfl, rfl, rfl, rfl, rfl⟩

/-- Firing a cooldown task for a worker that is active deregisters it:
gone from the active table, destroyed record in the completed history. -/
theorem delayed_destruction_destroys (env : OrchestratorEnv) (t : PendingTask) (w : World)
    (h : ∃ e, dictGet t.agent.agent_id w.reg.active = some e ∧ e.agent_id = t.agent.agent_id)
    (hm : 1 ≤ w.reg.max_completed) :
    dictGet t.agent.agent_id (delayed_agent_destruction env t w).reg.active = none ∧
    ∃ e2, get_agent (delayed_agent_destruction env t w).reg t.agent.agent_id = some e2 ∧
      e2.status = "destroyed" := by
  obtain ⟨e, he, hid⟩ := h
  obtain ⟨h1, h2, h3⟩ := delayed_destruction_spec env t w e he hid hm
  exact ⟨h1, finalizeEntry e _ _ _, h2, rfl⟩

set_option maxHeartbeats 4000000 in
/-- C1 (amended, WebSocket path only): every utterance the WebSocket handler
processes from the initial state schedules exactly one deferred destruction
task, bound to the worker it spawned for the classified kind; firing any
scheduled destruction task whose worker is active removes the worker from
the active table and places its destroyed record in the completed history —
shown end-to-end on the two-request scenario, where both workers end
destroyed and none stays active.  Workers of the REST `/api/query` path are
never scheduled for destruction. -/
theorem ws_worker_destroyed_after_cooldown
    (env : OrchestratorEnv) (sid msg : String) (outcome : ClassifierOutcome)
    (beh : ExecBehavior) (cls : AgentClass)
    (hmsg : ¬ (msg = ""))
    (hcls : dictGet ((classify_intent outcome).agent.getD "health_agent") AGENT_CLASSES
              = some cls) :
    (∃ t : PendingTask,
        (wsHandleUtterance env sid msg outcome beh {}).2.pendingTasks = [t] ∧
        t.agent.cls = cls ∧
        t.agent_name = (classify_intent outcome).agent.getD "health_agent") ∧
    (∀ (t : PendingTask) (w : World) (e : RegistryEntry),
        dictGet t.agent.agent_id w.reg.active = some e →
        e.agent_id = t.agent.agent_id →
        1 ≤ w.reg.max_completed →
        dictGet t.agent.agent_id (delayed_agent_destruction env t w).reg.active = none ∧
        ∃ e2, get_agent (delayed_agent_destruction env t w).reg t.agent.agent_id
            = some e2 ∧ e2.status = "destroyed") ∧
    (c6AfterB.pendingTasks.map (fun t => t.agent.agent_id)
        = ["agent-10000000", "agent-10000007"] ∧
     c6Final.reg.active = [] ∧
     c6Final.reg.completed.map (fun e => (e.agent_id, e.status))
        = [("agent-10000007", "destroyed"), ("agent-10000000", "destroyed")]) := by
  refine ⟨?_, ?_, rfl, rfl, rfl⟩
  · cases beh with
    | ok r d =>
      simp only [wsHandleUtterance, if_neg hmsg, hcls]
      exact ⟨_, rfl, rfl, rfl⟩
    | exc m d =>
      simp only [wsHandleUtterance, if_neg hmsg, hcls]
      exact ⟨_, rfl, rfl, rfl⟩
  · intro t w e h hid hm
    exact delayed_destruction_destroys env t w ⟨e, h, hid⟩ hm

set_option maxHeartbeats 2000000 in
/-- Witness for C1 on a concrete log-analysis utterance. -/
theorem ws_worker_destroyed_after_cooldown_witness :
    ¬ (("check logs for errors" : String) = "") ∧
    dictGet ((classify_intent c6IntentA).agent.getD "health_agent") AGENT_CLASSES
      = some LogAgentCls ∧
    ((∃ t : PendingTask,
        (wsHandleUtterance sampleEnv "sessW" "check logs for errors" c6IntentA
            (.ok [("status", .s "success")] 15) {}).2.pendingTasks = [t] ∧
        t.agent.cls = LogAgentCls ∧
        t.agent_name = (classify_intent c6IntentA).agent.getD "health_agent") ∧
     (∀ (t : PendingTask) (w : World) (e : RegistryEntry),
        dictGet t.agent.agent_id w.reg.active = some e →
        e.agent_id = t.agent.agent_id →
        1 ≤ w.reg.max_completed →
        dictGet t.agent.agent_id
            (delayed_agent_destruction sampleEnv t w).reg.active = none ∧
        ∃ e2, get_agent (delayed_agent_destruction sampleEnv t w).reg t.agent.agent_id
            = some e2 ∧ e2.status = "destroyed") ∧
     (c6AfterB.pendingTasks.map (fun t => t.agent.agent_id)
        = ["agent-10000000", "agent-10000007"] ∧
      c6Final.reg.active = [] ∧
      c6Final.reg.completed.map (fun e => (e.agent_id, e.status))
        = [("agent-10000007", "destroyed"), ("agent-10000000", "destroyed")])) :=
  ⟨by decide, rfl,
   ws_worker_destroyed_after_cooldown sampleEnv "sessW" "check logs for errors" c6IntentA
     (.ok [("status", .s "success")] 15) LogAgentCls (by decide) rfl⟩


-- ── Claim C5: id uniqueness ───────────────────────────────────────────

/-- Instantiate one worker per listed class, in order (each construction
registers itself, as in `BaseAgent.__init__`). -/
def createMany (env : OrchestratorEnv) (clss : List AgentClass) (w : World) :
    List Agent × World :=
  match clss with
  | [] => ([], w)
  | c :: rest =>
    let p := newAgent env c true w
    let q := createMany env rest p.2
    (p.1 :: q.1, q.2)

/-- The ids `BaseAgent.__init__` derives from `n` successive uuid draws
starting at counter `c`. -/
def idsFrom (env : OrchestratorEnv) (c : Nat) : Nat → List String
  | 0 => []
  | n+1 => ("agent-" ++ (env.uuidSrc c).take 8) :: idsFrom env (c+1) n

set_option maxHeartbeats 1600000 in
theorem createMany_ids (env : OrchestratorEnv) :
    ∀ (clss : List AgentClass) (w : World),
      (createMany env clss w).1.map Agent.agent_id = idsFrom env w.uuidCtr clss.length := by
  intro clss
  induction clss with
  | nil => intro w; rfl
  | cons c rest ih =>
    intro w
    show ((newAgent env c true w).1.agent_id)
        :: (createMany env rest (newAgent env c true w).2).1.map Agent.agent_id
      = idsFrom env w.uuidCtr (rest.length + 1)
    rw [ih]
    rfl

set_option maxHeartbeats 1600000 in
theorem createMany_total (env : OrchestratorEnv) :
    ∀ (clss : List AgentClass) (w : World),
      (createMany env clss w).2.reg.total_created
        = w.reg.total_created + clss.length := by
  intro clss
  induction clss with
  | nil => intro w; rfl
  | cons c rest ih =>
    intro w
    show (createMany env rest (newAgent env c true w).2).2.reg.total_created = _
    rw [ih]
    show w.reg.total_created + 1 + rest.length = w.reg.total_created + (rest.length + 1)
    omega

set_option maxHeartbeats 1600000 in
theorem mem_idsFrom (env : OrchestratorEnv) :
    ∀ (n c : Nat) (x : String),
      x ∈ idsFrom env c n ↔ ∃ k, k < n ∧ x = "agent-" ++ (env.uuidSrc (c+k)).take 8 := by
  intro n
  induction n with
  | zero => intro c x; simp [idsFrom]
  | succ n ih =>
    intro c x
    simp only [idsFrom, List.mem_cons, ih (c+1)]
    constructor
    · intro h
      rcases h with h | ⟨k, hk, h⟩
      · exact ⟨0, by omega, by rw [h]; simp⟩
      · refine ⟨k+1, by omega, ?_⟩
        rw [h, show c + (k+1) = c + 1 + k from by omega]
    · intro h
      obtain ⟨k, hk, h⟩ := h
      cases k with
      | zero => left; rw [h]; simp
      | succ k =>
        right
        refine ⟨k, by omega, ?_⟩
        rw [h, show c + (k+1) = c + 1 + k from by omega]

theorem string_append_left_cancel {p x y : String} (h : p ++ x = p ++ y) : x = y := by
  have hd : (p ++ x).data = (p ++ y).data := congrArg String.data h
  rw [String.data_append, String.data_append] at hd
  have h2 := List.append_cancel_left hd
  cases x with
  | mk xd =>
    cases y with
    | mk yd => exact congrArg String.mk h2

set_option maxHeartbeats 1600000 in
theorem idsFrom_pairwise (env : OrchestratorEnv) :
    ∀ (n c : Nat),
      (∀ i, i < n → ∀ j, j < n → i ≠ j →
        (env.uuidSrc (c+i)).take 8 ≠ (env.uuidSrc (c+j)).take 8) →
      (idsFrom env c n).Pairwise (fun x y => x ≠ y) := by
  intro n
  induction n with
  | zero => intro c h; exact List.Pairwise.nil
  | succ n ih =>
    intro c h
    refine List.Pairwise.cons ?_ (ih (c+1) ?_)
    · intro y hy heq
      obtain ⟨k, hk, hy2⟩ := (mem_idsFrom env n (c+1) y).mp hy
      rw [hy2] at heq
      have h2 := string_append_left_cancel heq
      have h3 : (env.uuidSrc (c+0)).take 8 ≠ (env.uuidSrc (c+(k+1))).take 8 :=
        h 0 (by omega) (k+1) (by omega) (by omega)
      rw [show c + (k+1) = c + 1 + k from by omega] at h3
      simp only [Nat.add_zero] at h3
      exact h3 h2
    · intro i hi j hj hij
      have h4 := h (i+1) (by omega) (j+1) (by omega) (by omega)
      rw [show c + (i+1) = c + 1 + i from by omega,
          show c + (j+1) = c + 1 + j from by omega] at h4
      exact h4

/-- C5 counterexample: ids come from truncated random uuids, so with a
colliding entropy stream two registrations receive the same id — and the
second silently overwrites the first in the active table (one registration
lost) even though `total_created` counts both.  Distinctness is not backed
by the monotone sequence counter. -/
theorem uuid_ids_can_collide :
    ((createMany collidingEnv [LogAgentCls, HealthAgentCls] {}).1.map Agent.agent_id)
      = ["agent-00000000", "agent-00000000"] ∧
    ¬ (((createMany collidingEnv [LogAgentCls, HealthAgentCls] {}).1.map
         Agent.agent_id).Pairwise (fun x y => x ≠ y)) ∧
    (createMany collidingEnv [LogAgentCls, HealthAgentCls] {}).2.reg.total_created = 2 ∧
    (createMany collidingEnv [LogAgentCls, HealthAgentCls] {}).2.reg.active.length = 1 := by
  refine ⟨rfl, ?_, rfl, rfl⟩
  decide

/-- C5 (amended): worker ids are `"agent-"` plus the first 8 hex digits of a
fresh `uuid4`, so N registrations get pairwise distinct ids exactly when the
drawn uuid fragments are pairwise distinct — uniqueness rests on the entropy
stream, not on the registry's sequence counter.  The registry does keep a
strictly monotone counter: each registration is stamped `seq =
total_created + 1` and increments `total_created`, but the id is not derived
from it. -/
theorem register_ids_amended (env : OrchestratorEnv) (clss : List AgentClass) (w : World)
    (h : ∀ i, i < clss.length → ∀ j, j < clss.length → i ≠ j →
          (env.uuidSrc (w.uuidCtr + i)).take 8 ≠ (env.uuidSrc (w.uuidCtr + j)).take 8) :
    ((createMany env clss w).1.map Agent.agent_id).Pairwise (fun x y => x ≠ y) ∧
    (createMany env clss w).2.reg.total_created = w.reg.total_created + clss.length ∧
    (∀ (a : Agent) (reg : AgentRegistry),
      (register env a reg).1.seq = reg.total_created + 1 ∧
      (register env a reg).2.total_created = reg.total_created + 1) := by
  refine ⟨?_, createMany_total env clss w, fun a reg => ⟨rfl, rfl⟩⟩
  rw [createMany_ids]
  exact idsFrom_pairwise env clss.length w.uuidCtr h

/-- Witness for C5: three registrations under an injective entropy stream. -/
theorem register_ids_amended_witness :
    (∀ i, i < ([LogAgentCls, HealthAgentCls, TraceAgentCls] : List AgentClass).length →
        ∀ j, j < ([LogAgentCls, HealthAgentCls, TraceAgentCls] : List AgentClass).length →
        i ≠ j →
        (sampleEnv.uuidSrc (({} : World).uuidCtr + i)).take 8
          ≠ (sampleEnv.uuidSrc (({} : World).uuidCtr + j)).take 8) ∧
    (((createMany sampleEnv [LogAgentCls, HealthAgentCls, TraceAgentCls] {}).1.map
        Agent.agent_id).Pairwise (fun x y => x ≠ y) ∧
     (createMany sampleEnv [LogAgentCls, HealthAgentCls, TraceAgentCls] {}).2.reg.total_created
        = ({} : World).reg.total_created
          + ([LogAgentCls, HealthAgentCls, TraceAgentCls] : List AgentClass).length ∧
     (∀ (a : Agent) (reg : AgentRegistry),
        (register sampleEnv a reg).1.seq = reg.total_created + 1 ∧
        (register sampleEnv a reg).2.total_created = reg.total_created + 1)) :=
  ⟨by decide,
   register_ids_amended sampleEnv [LogAgentCls, HealthAgentCls, TraceAgentCls] {} (by decide)⟩

end SreAgent
